import Mathlib

/-!
Shallow embedding of the acquisition-lifecycle core of the listenarr
repository: the download service (`internal/download`), the qBittorrent
client data it consumes (`pkg/qbit`), the GORM models
(`internal/models`), and the REST handlers for starting/cancelling
downloads and retrying processing tasks (`internal/api`).

Time is modelled as `Nat` (an abstract clock value for `time.Now()`),
`float64` fields as `ℚ`, and the database as explicit lists of records
keyed by numeric id.  The qBittorrent daemon is modelled as a function
from torrent hash to `Option TorrentInfo` (`none` = network/daemon
error on that call).
-/

/-- `models.DownloadStatus` (internal/models): status of a Download row. -/
inductive DownloadStatus
  | queued
  | downloading
  | completed
  | failed
  | paused
deriving DecidableEq, Repr

/-- `models.LibraryItemStatus` (internal/models): status of a LibraryItem row. -/
inductive LibraryItemStatus
  | wanted
  | downloading
  | processing
  | available
  | error
deriving DecidableEq, Repr

/-- `models.ProcessingStatus` (internal/models): status of a ProcessingTask row. -/
inductive ProcessingStatus
  | pending
  | processing
  | completed
  | failed
deriving DecidableEq, Repr

/-- `models.LibraryItem`: a work in the user's library.  `filePath` is the
path to the final packaged file, `completedDate` the completion stamp. -/
structure LibraryItem where
  id : Nat
  bookID : Nat
  status : LibraryItemStatus
  filePath : String
  completedDate : Option Nat
deriving DecidableEq, Repr

/-- `models.Release`: a discovered release candidate with its transfer
locators (magnet URL preferred, plain torrent URL as fallback). -/
structure Release where
  id : Nat
  magnetURL : String
  torrentURL : String
deriving DecidableEq, Repr

/-- `models.Download`: one transfer attempt.  `progress` is the stored
progress value (the Go struct documents it as 0-100), `qbittorrentHash`
the opaque daemon handle ("" = not yet known), `downloadPath` the
resolved content path. -/
structure Download where
  id : Nat
  libraryItemID : Nat
  releaseID : Nat
  status : DownloadStatus
  progress : ℚ
  speed : Int
  size : Int
  downloaded : Int
  error : String
  qbittorrentHash : String
  downloadPath : String
  completedAt : Option Nat
deriving DecidableEq, Repr

/-- `models.ProcessingTask`: the conversion task owned by a completed
download (`downloadID` is the foreign key). -/
structure ProcessingTask where
  id : Nat
  downloadID : Nat
  status : ProcessingStatus
  progress : ℚ
  inputPath : String
  outputPath : String
  error : String
  startedAt : Option Nat
  completedAt : Option Nat
deriving DecidableEq, Repr

/-- `qbit.TorrentInfo` (pkg/qbit/client.go): the daemon's report for one
torrent.  `progress` is the daemon's fraction in [0,1]; `state` is the
daemon's loosely-typed state string. -/
structure TorrentInfo where
  size : Int
  progress : ℚ
  state : String
  downloaded : Int
  downloadSpeed : Int
  contentPath : String
deriving DecidableEq, Repr

/-- The persisted state: the relevant tables plus auto-increment counters. -/
structure DB where
  items : List LibraryItem
  releases : List Release
  downloads : List Download
  tasks : List ProcessingTask
  nextDownloadID : Nat
  nextTaskID : Nat
deriving DecidableEq, Repr

/-- `db.First(&libraryItem, id)`: primary-key lookup. -/
def findItem (db : DB) (id : Nat) : Option LibraryItem :=
  db.items.find? (fun i => i.id == id)

/-- `db.First(&release, id)`: primary-key lookup. -/
def findRelease (db : DB) (id : Nat) : Option Release :=
  db.releases.find? (fun r => r.id == id)

/-- `db.First(&download, id)`: primary-key lookup. -/
def findDownload (db : DB) (id : Nat) : Option Download :=
  db.downloads.find? (fun d => d.id == id)

/-- `db.First(&task, id)`: primary-key lookup. -/
def findTask (db : DB) (id : Nat) : Option ProcessingTask :=
  db.tasks.find? (fun t => t.id == id)

/-- `db.Save(&libraryItem)`: replace the row with the same id. -/
def saveItem (db : DB) (item : LibraryItem) : DB :=
  { db with items := db.items.map (fun i => if i.id == item.id then item else i) }

/-- `db.Save(&download)`: replace the row with the same id. -/
def saveDownload (db : DB) (d : Download) : DB :=
  { db with downloads := db.downloads.map (fun x => if x.id == d.id then d else x) }

/-- `db.Save(&task)`: replace the row with the same id. -/
def saveTask (db : DB) (t : ProcessingTask) : DB :=
  { db with tasks := db.tasks.map (fun x => if x.id == t.id then t else x) }

/-- The `switch torrent.State` of `Service.UpdateDownloadStatus`
(internal/download): translate the daemon's state string onto the
download's status (an unknown state leaves the status untouched, the Go
switch has no default case). -/
def applyState (now : Nat) (state : String) (d1 : Download) : Download :=
  if state = "downloading" ∨ state = "stalledDL" ∨ state = "queuedDL" then
    { d1 with status := DownloadStatus.downloading }
  else if state = "uploading" ∨ state = "stalledUP" ∨ state = "queuedUP" then
    { d1 with status := DownloadStatus.completed, completedAt := some now }
  else if state = "error" then
    { d1 with status := DownloadStatus.failed, error := "qBittorrent reported error state" }
  else if state = "pausedDL" ∨ state = "pausedUP" then
    { d1 with status := DownloadStatus.paused }
  else if state = "missingFiles" then
    { d1 with status := DownloadStatus.failed, error := "Missing files" }
  else d1

/-- The trailing `if torrent.ContentPath != ""` of
`Service.UpdateDownloadStatus`: copy a non-empty content path. -/
def applyContentPath (contentPath : String) (d2 : Download) : Download :=
  if contentPath ≠ "" then { d2 with downloadPath := contentPath } else d2

/-- The in-memory field updates performed by
`Service.UpdateDownloadStatus` (internal/download) on a successful
`GetTorrentInfo` call: progress is the daemon fraction times 100,
speed/size/downloaded are copied, the status switch translates the
daemon state string, and a non-empty content path is copied onto the
download. -/
def applyTorrentInfo (now : Nat) (d : Download) (t : TorrentInfo) : Download :=
  applyContentPath t.contentPath
    (applyState now t.state
      { d with
        progress := t.progress * 100
        speed := t.downloadSpeed
        size := t.size
        downloaded := t.downloaded })

/-- `Service.UpdateDownloadStatus`: with an empty daemon handle it
returns nil immediately (no daemon call, nothing saved); on a failed
daemon call it returns the error having mutated nothing; otherwise it
applies the field updates and saves the row.  `polls` models the
daemon: the reply (or `none` for an error) for each hash. -/
def updateDownloadStatus (now : Nat) (polls : String → Option TorrentInfo)
    (db : DB) (d : Download) : Except String (DB × Download) :=
  if d.qbittorrentHash = "" then Except.ok (db, d)
  else
    match polls d.qbittorrentHash with
    | none => Except.error "failed to get torrent info"
    | some t =>
        let d' := applyTorrentInfo now d t
        Except.ok (saveDownload db d', d')

/-- `Service.triggerProcessing`: create the processing task for a
completed download unless one already exists for it, then mark the
owning library item as processing. -/
def triggerProcessing (db : DB) (d : Download) : DB :=
  if db.tasks.any (fun task => task.downloadID == d.id) then db
  else
    let task : ProcessingTask :=
      { id := db.nextTaskID
        downloadID := d.id
        status := ProcessingStatus.pending
        progress := 0
        inputPath := d.downloadPath
        outputPath := ""
        error := ""
        startedAt := none
        completedAt := none }
    let db1 := { db with tasks := db.tasks ++ [task], nextTaskID := db.nextTaskID + 1 }
    match findItem db1 d.libraryItemID with
    | none => db1
    | some item => saveItem db1 { item with status := LibraryItemStatus.processing }

/-- One iteration of the loop body of `Service.MonitorDownloads`: update
the download from the daemon; on error continue with the database
untouched; if the download completed, trigger processing. -/
def monitorStep (now : Nat) (polls : String → Option TorrentInfo)
    (db : DB) (d : Download) : DB :=
  match updateDownloadStatus now polls db d with
  | Except.error _ => db
  | Except.ok (db', d') =>
      if d'.status = DownloadStatus.completed then triggerProcessing db' d' else db'

/-- The Bool-valued test of `Download.IsActive` /
`MonitorDownloads`' WHERE clause: status is queued or downloading. -/
def isActiveStatus (s : DownloadStatus) : Bool :=
  s == DownloadStatus.queued || s == DownloadStatus.downloading

/-- `Service.MonitorDownloads`: fetch the queued/downloading rows and
run the loop body over them. -/
def monitorDownloads (now : Nat) (polls : String → Option TorrentInfo) (db : DB) : DB :=
  (db.downloads.filter (fun d => isActiveStatus d.status)).foldl (monitorStep now polls) db

/-- The download row created by both `Server.startDownload` and
`Service.StartDownload`: status queued, progress 0, all other fields
zero-valued — in particular `qbittorrentHash` is the empty string
(neither creator sets the daemon handle). -/
def newDownload (db : DB) (libraryItemID releaseID : Nat) : Download :=
  { id := db.nextDownloadID
    libraryItemID := libraryItemID
    releaseID := releaseID
    status := DownloadStatus.queued
    progress := 0
    speed := 0
    size := 0
    downloaded := 0
    error := ""
    qbittorrentHash := ""
    downloadPath := ""
    completedAt := none }

/-- `Server.startDownload` (internal/api/downloads.go, POST
/api/v1/downloads): 404 if the item or release is missing; 409 Conflict
if a queued or downloading row already exists for the item; otherwise
create a queued download, mark the item downloading and return 201. -/
def startDownloadHandler (db : DB) (libraryItemID releaseID : Nat) : Nat × DB :=
  match findItem db libraryItemID with
  | none => (404, db)
  | some libraryItem =>
    match findRelease db releaseID with
    | none => (404, db)
    | some _ =>
      if db.downloads.any (fun d => d.libraryItemID == libraryItemID && isActiveStatus d.status) then
        (409, db)
      else
        let download := newDownload db libraryItemID releaseID
        let db1 := { db with downloads := db.downloads ++ [download],
                             nextDownloadID := db.nextDownloadID + 1 }
        let db2 := saveItem db1 { libraryItem with status := LibraryItemStatus.downloading }
        (201, db2)

/-- `Server.cancelDownload` (internal/api/downloads.go, DELETE
/api/v1/downloads/:id): 404 if missing; 400 BadRequest unless the
download is queued or downloading; otherwise mark the download failed
with a cancellation message, set the owning item back to wanted, and
return 204.  The handler makes no daemon call. -/
def cancelDownloadHandler (db : DB) (id : Nat) : Nat × DB :=
  match findDownload db id with
  | none => (404, db)
  | some download =>
    if download.status ≠ DownloadStatus.queued ∧ download.status ≠ DownloadStatus.downloading then
      (400, db)
    else
      let d' := { download with status := DownloadStatus.failed,
                                error := "Download cancelled by user" }
      let db1 := saveDownload db d'
      let db2 :=
        match findItem db1 download.libraryItemID with
        | none => db1
        | some item => saveItem db1 { item with status := LibraryItemStatus.wanted }
      (204, db2)

/-- `Service.CancelDownload` (internal/download): delete the torrent
from the daemon when a hash is known — best-effort, a daemon error is
only logged (`daemonRemoveFails` records whether the daemon call would
fail and is deliberately not consulted for the outcome) — then mark the
download failed/cancelled and the owning item wanted. -/
def serviceCancelDownload (db : DB) (downloadID : Nat) (daemonRemoveFails : Bool) :
    Except String DB :=
  match findDownload db downloadID with
  | none => Except.error "download not found"
  | some download =>
    let _ := daemonRemoveFails
    let d' := { download with status := DownloadStatus.failed, error := "Cancelled by user" }
    let db1 := saveDownload db d'
    let db2 :=
      match findItem db1 download.libraryItemID with
      | none => db1
      | some item => saveItem db1 { item with status := LibraryItemStatus.wanted }
    Except.ok db2

/-- `Service.StartDownload` (internal/download): resolve the torrent
locator from the release (magnet preferred), create a queued download
record with no daemon handle, submit it to the daemon (`addTorrentOk`
models whether `qbit.AddTorrent` succeeds); on daemon failure the row
is saved as failed and an error returned; on success the owning item is
marked downloading. -/
def serviceStartDownload (db : DB) (libraryItemID releaseID : Nat) (addTorrentOk : Bool) :
    DB × Except String Download :=
  match findRelease db releaseID with
  | none => (db, Except.error "release not found")
  | some release =>
    let torrentURL := if release.magnetURL ≠ "" then release.magnetURL else release.torrentURL
    if torrentURL = "" then
      (db, Except.error "no torrent URL or magnet URL available for release")
    else
      let download := newDownload db libraryItemID releaseID
      let db1 := { db with downloads := db.downloads ++ [download],
                           nextDownloadID := db.nextDownloadID + 1 }
      if addTorrentOk then
        let db2 :=
          match findItem db1 libraryItemID with
          | none => db1
          | some item => saveItem db1 { item with status := LibraryItemStatus.downloading }
        (db2, Except.ok download)
      else
        let failed := { download with status := DownloadStatus.failed,
                                      error := "Failed to add torrent to qBittorrent" }
        (saveDownload db1 failed, Except.error "failed to add torrent")

/-- `Server.retryProcessingTask` (POST /api/v1/processing/:id/retry):
404 if missing; 400 BadRequest unless the task is failed; otherwise
reset the same row to pending with progress 0, empty error and cleared
timestamps and return 200.  It touches no other table. -/
def retryProcessingTaskHandler (db : DB) (id : Nat) : Nat × DB :=
  match findTask db id with
  | none => (404, db)
  | some task =>
    if task.status ≠ ProcessingStatus.failed then (400, db)
    else
      let task' := { task with status := ProcessingStatus.pending
                               progress := 0
                               error := ""
                               startedAt := none
                               completedAt := none }
      (200, saveTask db task')

/-- Modelled from the spec: the Processing → Available transition of the
Acquisition Lifecycle Controller — "triggered when
ConversionTask.Status becomes Complete.  Controller copies the resolved
output path onto LibraryWork, stamps completion time, sets
Status=Available."  The converter-completion worker is absent from the
source tree (only the models, their tests and the retry endpoint
exist), so this operation is taken from the spec's words. -/
def completeProcessing (now : Nat) (db : DB) (taskID : Nat) (outputPath : String) : DB :=
  match findTask db taskID with
  | none => db
  | some task =>
    let task' := { task with status := ProcessingStatus.completed
                             progress := 100
                             outputPath := outputPath
                             completedAt := some now }
    let db1 := saveTask db task'
    match findDownload db1 task.downloadID with
    | none => db1
    | some download =>
      match findItem db1 download.libraryItemID with
      | none => db1
      | some item =>
        saveItem db1 { item with status := LibraryItemStatus.available
                                 filePath := outputPath
                                 completedDate := some now }

/-- Number of downloads for a given library item whose status lies in a
given set of statuses (used to state the per-work uniqueness
invariants). -/
def countWithStatus (db : DB) (libraryItemID : Nat) (statuses : List DownloadStatus) : Nat :=
  (db.downloads.filter
    (fun d => d.libraryItemID == libraryItemID && statuses.contains d.status)).length

/-- The per-work invariant the startDownload handler actually maintains:
at most one queued-or-downloading download per library item. -/
def atMostOneActive (db : DB) : Prop :=
  ∀ liid : Nat, countWithStatus db liid [DownloadStatus.queued, DownloadStatus.downloading] ≤ 1

/-! Concrete records used to evaluate the operations on small inputs. -/

/-- A library item in the Downloading state (id 1). -/
def exItem : LibraryItem :=
  { id := 1, bookID := 1, status := LibraryItemStatus.downloading,
    filePath := "", completedDate := none }

/-- A library item in the Error state (id 1). -/
def exItemError : LibraryItem :=
  { id := 1, bookID := 1, status := LibraryItemStatus.error,
    filePath := "", completedDate := none }

/-- A library item in the Processing state (id 1). -/
def exItemProcessing : LibraryItem :=
  { id := 1, bookID := 1, status := LibraryItemStatus.processing,
    filePath := "", completedDate := none }

/-- A release with a magnet link (id 1). -/
def exRelease : Release :=
  { id := 1, magnetURL := "magnet:x", torrentURL := "" }

/-- A paused download for library item 1 (id 1). -/
def pausedDownload : Download :=
  { id := 1, libraryItemID := 1, releaseID := 1, status := DownloadStatus.paused,
    progress := 0, speed := 0, size := 0, downloaded := 0, error := "",
    qbittorrentHash := "abc", downloadPath := "", completedAt := none }

/-- A queued download for library item 1 (id 1), daemon handle unknown. -/
def queuedDownload : Download :=
  { id := 1, libraryItemID := 1, releaseID := 1, status := DownloadStatus.queued,
    progress := 0, speed := 0, size := 0, downloaded := 0, error := "",
    qbittorrentHash := "", downloadPath := "", completedAt := none }

/-- A completed download for library item 1 (id 1). -/
def completedDownload : Download :=
  { id := 1, libraryItemID := 1, releaseID := 1, status := DownloadStatus.completed,
    progress := 100, speed := 0, size := 0, downloaded := 0, error := "",
    qbittorrentHash := "abc", downloadPath := "/downloads/book", completedAt := none }

/-- A downloading transfer whose daemon handle is known (id 1). -/
def d0 : Download :=
  { id := 1, libraryItemID := 1, releaseID := 1, status := DownloadStatus.downloading,
    progress := 0, speed := 0, size := 0, downloaded := 0, error := "",
    qbittorrentHash := "h", downloadPath := "", completedAt := none }

/-- A daemon report: downloading at 40%. -/
def t40 : TorrentInfo :=
  { size := 100, progress := 2/5, state := "downloading", downloaded := 40,
    downloadSpeed := 1, contentPath := "/dl/x" }

/-- A daemon report: downloading at 50%. -/
def t50 : TorrentInfo :=
  { size := 100, progress := 1/2, state := "downloading", downloaded := 50,
    downloadSpeed := 1, contentPath := "/dl/x" }

/-- A failed processing task for download 1 (id 1). -/
def failedTask : ProcessingTask :=
  { id := 1, downloadID := 1, status := ProcessingStatus.failed, progress := 30,
    inputPath := "/downloads/book", outputPath := "", error := "boom",
    startedAt := some 3, completedAt := some 4 }

/-- A pending processing task for download 1 (id 1). -/
def pendingTask : ProcessingTask :=
  { id := 1, downloadID := 1, status := ProcessingStatus.pending, progress := 0,
    inputPath := "/downloads/book", outputPath := "", error := "",
    startedAt := none, completedAt := none }

/-- State with a paused transfer for item 1: the conflict check does not
see it. -/
def dbPaused : DB :=
  { items := [exItem], releases := [exRelease], downloads := [pausedDownload],
    tasks := [], nextDownloadID := 2, nextTaskID := 1 }

/-- State with a queued transfer for item 1. -/
def dbQueued : DB :=
  { items := [exItem], releases := [exRelease], downloads := [queuedDownload],
    tasks := [], nextDownloadID := 2, nextTaskID := 1 }

/-- State with a completed download whose work is mid-Processing and a
failed conversion task, the work marked Error. -/
def dbRetry : DB :=
  { items := [exItemError], releases := [exRelease], downloads := [completedDownload],
    tasks := [failedTask], nextDownloadID := 2, nextTaskID := 2 }

/-- State with a completed download (its work Processing) and no task yet. -/
def dbCompleted : DB :=
  { items := [exItemProcessing], releases := [exRelease], downloads := [completedDownload],
    tasks := [], nextDownloadID := 2, nextTaskID := 1 }

/-- State with a completed download, its work Processing, and a pending
conversion task. -/
def dbProcessing : DB :=
  { items := [exItemProcessing], releases := [exRelease], downloads := [completedDownload],
    tasks := [pendingTask], nextDownloadID := 2, nextTaskID := 2 }

/-! Helper lemmas. -/

/-- The status switch never touches the progress field. -/
theorem applyState_progress (now : Nat) (s : String) (d1 : Download) :
    (applyState now s d1).progress = d1.progress := by
  unfold applyState
  repeat' split
  all_goals rfl

/-- Copying the content path never touches the progress field. -/
theorem applyContentPath_progress (cp : String) (d2 : Download) :
    (applyContentPath cp d2).progress = d2.progress := by
  unfold applyContentPath
  split
  all_goals rfl

/-- Copying the content path never touches the status field. -/
theorem applyContentPath_status (cp : String) (d2 : Download) :
    (applyContentPath cp d2).status = d2.status := by
  unfold applyContentPath
  split
  all_goals rfl

/-- Copying the content path never touches the completion stamp. -/
theorem applyContentPath_completedAt (cp : String) (d2 : Download) :
    (applyContentPath cp d2).completedAt = d2.completedAt := by
  unfold applyContentPath
  split
  all_goals rfl

/-- Copying the content path never touches the error field. -/
theorem applyContentPath_error (cp : String) (d2 : Download) :
    (applyContentPath cp d2).error = d2.error := by
  unfold applyContentPath
  split
  all_goals rfl

/-- The stored progress after a successful poll is always the daemon
fraction times 100 — independent of the previously stored value. -/
theorem applyTorrentInfo_progress (now : Nat) (d : Download) (t : TorrentInfo) :
    (applyTorrentInfo now d t).progress = t.progress * 100 := by
  unfold applyTorrentInfo
  rw [applyContentPath_progress, applyState_progress]

/-- Membership in the two-status list used by the invariant agrees with
the Bool test used by the handler's conflict check. -/
theorem contains_active (s : DownloadStatus) :
    [DownloadStatus.queued, DownloadStatus.downloading].contains s = isActiveStatus s := by
  cases s <;> rfl

/-- A filter of a singleton list has at most one element. -/
theorem length_filter_singleton {α : Type} (p : α → Bool) (x : α) :
    (List.filter p [x]).length ≤ 1 := by
  simp only [List.filter]
  split <;> simp

/-! Claim theorems. -/

/-- C2: on a successful poll of a transfer whose daemon handle is known,
`UpdateDownloadStatus` saves exactly the field update `applyTorrentInfo`,
and that update maps the daemon state string onto the internal status as
the claim lists it: downloading/queuedDL/stalledDL → Downloading;
uploading/queuedUP/stalledUP → Completed with the completion timestamp
stamped; error and missingFiles → Failed with an error message recorded;
pausedDL/pausedUP → Paused. -/
theorem c2_state_mapping (now : Nat) (polls : String → Option TorrentInfo)
    (db : DB) (d : Download) (t : TorrentInfo)
    (hh : d.qbittorrentHash ≠ "")
    (hp : polls d.qbittorrentHash = some t) :
    updateDownloadStatus now polls db d =
      Except.ok (saveDownload db (applyTorrentInfo now d t), applyTorrentInfo now d t) ∧
    ((t.state = "downloading" ∨ t.state = "queuedDL" ∨ t.state = "stalledDL") →
      (applyTorrentInfo now d t).status = DownloadStatus.downloading) ∧
    ((t.state = "uploading" ∨ t.state = "queuedUP" ∨ t.state = "stalledUP") →
      (applyTorrentInfo now d t).status = DownloadStatus.completed ∧
      (applyTorrentInfo now d t).completedAt = some now) ∧
    (t.state = "error" →
      (applyTorrentInfo now d t).status = DownloadStatus.failed ∧
      (applyTorrentInfo now d t).error = "qBittorrent reported error state") ∧
    (t.state = "missingFiles" →
      (applyTorrentInfo now d t).status = DownloadStatus.failed ∧
      (applyTorrentInfo now d t).error = "Missing files") ∧
    ((t.state = "pausedDL" ∨ t.state = "pausedUP") →
      (applyTorrentInfo now d t).status = DownloadStatus.paused) := by
  refine ⟨by simp [updateDownloadStatus, hh, hp], ?_, ?_, ?_, ?_, ?_⟩
  · intro h
    unfold applyTorrentInfo
    rw [applyContentPath_status]
    unfold applyState
    rcases h with h | h | h <;> rw [h] <;> simp
  · intro h
    unfold applyTorrentInfo
    rw [applyContentPath_status, applyContentPath_completedAt]
    unfold applyState
    rcases h with h | h | h <;> rw [h] <;> simp
  · intro h
    unfold applyTorrentInfo
    rw [applyContentPath_status, applyContentPath_error]
    unfold applyState
    rw [h]
    simp
  · intro h
    unfold applyTorrentInfo
    rw [applyContentPath_status, applyContentPath_error]
    unfold applyState
    rw [h]
    simp
  · intro h
    unfold applyTorrentInfo
    rw [applyContentPath_status]
    unfold applyState
    rcases h with h | h <;> rw [h] <;> simp

/-- C2 witness: polling the concrete transfer `d0` while the daemon
reports "downloading" at 40% leaves it in status Downloading. -/
theorem c2_state_mapping_witness :
    (applyTorrentInfo 0 d0 t40).status = DownloadStatus.downloading :=
  (c2_state_mapping 0 (fun _ => some t40) dbQueued d0 t40 (by decide) rfl).2.1
    (Or.inl rfl)

/-- C5: a download whose daemon handle is empty is skipped by
`UpdateDownloadStatus` — the result is `ok` with the state and the
record unchanged, for every possible daemon behaviour, so the daemon is
never consulted; `Service.StartDownload` only ever hands out downloads
with an empty handle; and the monitor loop body leaves such a queued
download, and the whole state, untouched — it is never advanced out of
Queued. -/
theorem c5_empty_handle_frame :
    (∀ (now : Nat) (polls : String → Option TorrentInfo) (db : DB) (d : Download),
      d.qbittorrentHash = "" → updateDownloadStatus now polls db d = Except.ok (db, d)) ∧
    (∀ (db : DB) (liid rid : Nat) (ok : Bool) (db' : DB) (dl : Download),
      serviceStartDownload db liid rid ok = (db', Except.ok dl) → dl.qbittorrentHash = "") ∧
    (∀ (now : Nat) (polls : String → Option TorrentInfo) (db : DB) (d : Download),
      d.qbittorrentHash = "" → d.status = DownloadStatus.queued →
      monitorStep now polls db d = db) := by
  refine ⟨?_, ?_, ?_⟩
  · intro now polls db d h
    simp [updateDownloadStatus, h]
  · intro db liid rid ok db' dl h
    cases hz : findRelease db rid with
    | none => simp [serviceStartDownload, hz] at h
    | some rel =>
      by_cases hm : (if rel.magnetURL ≠ "" then rel.magnetURL else rel.torrentURL) = ""
      · simp only [serviceStartDownload, hz, hm, if_pos, if_true] at h
        simp at h
      · cases ok with
        | false =>
          simp only [serviceStartDownload, hz] at h
          rw [if_neg hm] at h
          simp at h
        | true =>
          simp only [serviceStartDownload, hz] at h
          rw [if_neg hm] at h
          simp only [if_true] at h
          rw [Prod.mk.injEq] at h
          obtain ⟨-, h2⟩ := h
          rw [Except.ok.injEq] at h2
          rw [← h2]
          rfl
  · intro now polls db d h hq
    simp [monitorStep, updateDownloadStatus, h, hq]

/-- C5 witness: the download created by `Service.StartDownload` on the
concrete state `dbQueued` carries no daemon handle, and the monitor
loop body leaves the freshly created queued download and the state
untouched. -/
theorem c5_empty_handle_frame_witness :
    (newDownload dbQueued 1 1).qbittorrentHash = "" ∧
    updateDownloadStatus 0 (fun _ => none) dbQueued (newDownload dbQueued 1 1) =
      Except.ok (dbQueued, newDownload dbQueued 1 1) ∧
    monitorStep 0 (fun _ => none) dbQueued (newDownload dbQueued 1 1) = dbQueued :=
  ⟨c5_empty_handle_frame.2.1 dbQueued 1 1 true
      (serviceStartDownload dbQueued 1 1 true).1 (newDownload dbQueued 1 1) rfl,
   c5_empty_handle_frame.1 0 (fun _ => none) dbQueued (newDownload dbQueued 1 1) rfl,
   c5_empty_handle_frame.2.2 0 (fun _ => none) dbQueued (newDownload dbQueued 1 1) rfl rfl⟩

/-- C8: when the daemon poll for a download with a known handle fails,
`UpdateDownloadStatus` returns the error without saving anything, the
monitor loop body leaves the state exactly as it was (the download keeps
its prior status, progress and error), and the fold over the remaining
downloads proceeds as if the failing one were skipped — so it is polled
again, unchanged, on the next cycle. -/
theorem c8_transient_failure_frame (now : Nat) (polls : String → Option TorrentInfo)
    (db : DB) (d : Download)
    (h1 : d.qbittorrentHash ≠ "") (h2 : polls d.qbittorrentHash = none) :
    updateDownloadStatus now polls db d = Except.error "failed to get torrent info" ∧
    monitorStep now polls db d = db ∧
    (∀ (l1 l2 : List Download) (db0 : DB),
      (l1 ++ d :: l2).foldl (monitorStep now polls) db0 =
        l2.foldl (monitorStep now polls) (l1.foldl (monitorStep now polls) db0)) := by
  have hstep : ∀ X : DB, monitorStep now polls X d = X := by
    intro X
    simp [monitorStep, updateDownloadStatus, h1, h2]
  refine ⟨by simp [updateDownloadStatus, h1, h2], hstep db, ?_⟩
  intro l1 l2 db0
  rw [List.foldl_append]
  simp [hstep]

/-- C8 witness: with the daemon unreachable, polling the concrete
transfer `d0` errors and the monitor cycle leaves the state unchanged. -/
theorem c8_transient_failure_frame_witness :
    updateDownloadStatus 0 (fun _ => none) dbQueued d0 =
      Except.error "failed to get torrent info" ∧
    monitorStep 0 (fun _ => none) dbQueued d0 = dbQueued ∧
    ([] ++ d0 :: []).foldl (monitorStep 0 (fun _ => none)) dbQueued =
      [].foldl (monitorStep 0 (fun _ => none))
        ([].foldl (monitorStep 0 (fun _ => none)) dbQueued) :=
  ⟨(c8_transient_failure_frame 0 (fun _ => none) dbQueued d0 (by decide) rfl).1,
   (c8_transient_failure_frame 0 (fun _ => none) dbQueued d0 (by decide) rfl).2.1,
   (c8_transient_failure_frame 0 (fun _ => none) dbQueued d0 (by decide) rfl).2.2 [] [] dbQueued⟩

/-- C3: when no conversion task exists yet for a completed download, the
trigger creates exactly one task — status Pending, progress 0, input
path equal to the download's content path — and marks the owning work
Processing; when a task already exists for that download, the trigger
changes nothing at all. -/
theorem c3_conversion_task_idempotent (db : DB) (d : Download) :
    (∀ item : LibraryItem,
      db.tasks.any (fun task => task.downloadID == d.id) = false →
      findItem db d.libraryItemID = some item →
      triggerProcessing db d =
        saveItem
          { db with
              tasks := db.tasks ++
                [{ id := db.nextTaskID, downloadID := d.id, status := ProcessingStatus.pending,
                   progress := 0, inputPath := d.downloadPath, outputPath := "", error := "",
                   startedAt := none, completedAt := none }],
              nextTaskID := db.nextTaskID + 1 }
          { item with status := LibraryItemStatus.processing }) ∧
    (db.tasks.any (fun task => task.downloadID == d.id) = true →
      triggerProcessing db d = db) := by
  constructor
  · intro item hno hitem
    unfold triggerProcessing
    rw [hno]
    simp only [Bool.false_eq_true, if_false]
    have hfind : findItem
        { db with
            tasks := db.tasks ++
              [{ id := db.nextTaskID, downloadID := d.id, status := ProcessingStatus.pending,
                 progress := 0, inputPath := d.downloadPath, outputPath := "", error := "",
                 startedAt := none, completedAt := none }],
            nextTaskID := db.nextTaskID + 1 } d.libraryItemID = some item := hitem
    rw [hfind]
  · intro hdup
    unfold triggerProcessing
    rw [hdup]
    simp

/-- C3 witness: on the concrete completed download with no task yet the
trigger creates the pending task and marks the work Processing, and on
the state that already holds a task it is a no-op. -/
theorem c3_conversion_task_idempotent_witness :
    triggerProcessing dbCompleted completedDownload =
      saveItem
        { dbCompleted with
            tasks := dbCompleted.tasks ++
              [{ id := dbCompleted.nextTaskID, downloadID := completedDownload.id,
                 status := ProcessingStatus.pending, progress := 0,
                 inputPath := completedDownload.downloadPath, outputPath := "", error := "",
                 startedAt := none, completedAt := none }],
            nextTaskID := dbCompleted.nextTaskID + 1 }
        { exItemProcessing with status := LibraryItemStatus.processing } ∧
    triggerProcessing dbProcessing completedDownload = dbProcessing :=
  ⟨(c3_conversion_task_idempotent dbCompleted completedDownload).1 exItemProcessing rfl rfl,
   (c3_conversion_task_idempotent dbProcessing completedDownload).2 rfl⟩

/-- C4 (modelled from the spec, the converter-completion worker being
absent from the source tree): when a conversion task completes, the
completion operation copies the output path onto the owning work's file
path, stamps the work's completion time and sets its status to
Available. -/
theorem c4_processing_to_available (now : Nat) (db : DB) (taskID : Nat) (outputPath : String)
    (task : ProcessingTask) (download : Download) (item : LibraryItem)
    (ht : findTask db taskID = some task)
    (hd : findDownload db task.downloadID = some download)
    (hi : findItem db download.libraryItemID = some item) :
    completeProcessing now db taskID outputPath =
      saveItem
        (saveTask db { task with status := ProcessingStatus.completed, progress := 100,
                                 outputPath := outputPath, completedAt := some now })
        { item with status := LibraryItemStatus.available, filePath := outputPath,
                    completedDate := some now } := by
  unfold completeProcessing
  rw [ht]
  dsimp only
  have hd' : findDownload
      (saveTask db { task with status := ProcessingStatus.completed, progress := 100,
                               outputPath := outputPath, completedAt := some now })
      task.downloadID = some download := hd
  rw [hd']
  dsimp only
  have hi' : findItem
      (saveTask db { task with status := ProcessingStatus.completed, progress := 100,
                               outputPath := outputPath, completedAt := some now })
      download.libraryItemID = some item := hi
  rw [hi']

/-- C4 witness: completing the concrete pending task at time 5 with
output path /library/book.m4b rewrites the work to Available with that
file path and completion date 5. -/
theorem c4_processing_to_available_witness :
    completeProcessing 5 dbProcessing 1 "/library/book.m4b" =
      saveItem
        (saveTask dbProcessing
          { pendingTask with status := ProcessingStatus.completed, progress := 100,
                             outputPath := "/library/book.m4b", completedAt := some 5 })
        { exItemProcessing with status := LibraryItemStatus.available,
                                filePath := "/library/book.m4b", completedDate := some 5 } :=
  c4_processing_to_available 5 dbProcessing 1 "/library/book.m4b"
    pendingTask completedDownload exItemProcessing rfl rfl rfl

/-- C9 counterexample: a poll reporting daemon progress 40% (fraction
2/5) while downloading stores Progress = 40, not the fraction 0.4 — the
stored progress is not a fraction in [0,1]. -/
theorem c9_progress_scale_counterexample :
    (applyTorrentInfo 0 d0 t40).progress = 40 ∧
    (applyTorrentInfo 0 d0 t40).progress ≠ (2/5 : ℚ) := by
  rw [applyTorrentInfo_progress]
  constructor
  · norm_num [t40]
  · norm_num [t40]

/-- C9 amended: the stored progress is the daemon fraction times 100,
hence a percentage lying in [0,100] whenever the daemon fraction lies in
[0,1]; a poll reporting 40% while downloading stores Progress = 40. -/
theorem c9_progress_percentage (now : Nat) (d : Download) (t : TorrentInfo)
    (h : 0 ≤ t.progress ∧ t.progress ≤ 1) :
    (applyTorrentInfo now d t).progress = t.progress * 100 ∧
    0 ≤ (applyTorrentInfo now d t).progress ∧
    (applyTorrentInfo now d t).progress ≤ 100 := by
  rw [applyTorrentInfo_progress]
  refine ⟨rfl, ?_, ?_⟩
  · exact mul_nonneg h.1 (by norm_num)
  · nlinarith [h.1, h.2]

/-- C9 witness: the 40% report on the concrete transfer stores a
progress between 0 and 100, namely 2/5 times 100. -/
theorem c9_progress_percentage_witness :
    (applyTorrentInfo 0 d0 t40).progress = t40.progress * 100 ∧
    0 ≤ (applyTorrentInfo 0 d0 t40).progress ∧
    (applyTorrentInfo 0 d0 t40).progress ≤ 100 :=
  c9_progress_percentage 0 d0 t40 (by constructor <;> norm_num [t40])

/-- C10 counterexample: across two consecutive successful polls (50%
downloading, then 40% downloading) the stored progress decreases — the
code does not enforce monotonicity against the daemon's reports. -/
theorem c10_monotonicity_counterexample :
    (applyTorrentInfo 0 d0 t50).status = DownloadStatus.downloading ∧
    (applyTorrentInfo 1 (applyTorrentInfo 0 d0 t50) t40).progress <
      (applyTorrentInfo 0 d0 t50).progress := by
  constructor
  · rfl
  · rw [applyTorrentInfo_progress, applyTorrentInfo_progress]
    norm_num [t40, t50]

/-- C10 amended: the newly stored progress equals the daemon fraction
times 100 regardless of the prior stored value, so across two
consecutive successful polls the stored progress is non-decreasing
exactly when the daemon-reported fraction is non-decreasing (the code
itself adds no monotonicity clamp). -/
theorem c10_progress_follows_daemon (n1 n2 : Nat) (d : Download) (t1 t2 : TorrentInfo)
    (h : t1.progress ≤ t2.progress) :
    (applyTorrentInfo n2 (applyTorrentInfo n1 d t1) t2).progress = t2.progress * 100 ∧
    (applyTorrentInfo n1 d t1).progress ≤
      (applyTorrentInfo n2 (applyTorrentInfo n1 d t1) t2).progress := by
  rw [applyTorrentInfo_progress, applyTorrentInfo_progress]
  exact ⟨rfl, by nlinarith [h]⟩

/-- C10 witness: polling 40% then 50% on the concrete transfer yields a
non-decreasing stored progress. -/
theorem c10_progress_follows_daemon_witness :
    (applyTorrentInfo 1 (applyTorrentInfo 0 d0 t40) t50).progress = t50.progress * 100 ∧
    (applyTorrentInfo 0 d0 t40).progress ≤
      (applyTorrentInfo 1 (applyTorrentInfo 0 d0 t40) t50).progress :=
  c10_progress_follows_daemon 0 1 d0 t40 t50 (by norm_num [t40, t50])

/-- C6 counterexample: on a state whose work is in Error with a failed
conversion task, the retry endpoint accepts (200) and resets the task to
Pending, but the owning work's status is left exactly as it was — the
handler never sets it to Processing. -/
theorem c6_retry_counterexample :
    (retryProcessingTaskHandler dbRetry 1).1 = 200 ∧
    (retryProcessingTaskHandler dbRetry 1).2.tasks.map ProcessingTask.status =
      [ProcessingStatus.pending] ∧
    (retryProcessingTaskHandler dbRetry 1).2.items.map LibraryItem.status =
      [LibraryItemStatus.error] := by
  refine ⟨rfl, rfl, rfl⟩

/-- C6 amended: retry is accepted only when the task is Failed (any other
status is rejected with 400 and no state change); an accepted retry
resets the same task row to Pending with progress 0, empty error and
cleared timestamps, creates no second row, and leaves the items table —
in particular the owning work's status — untouched. -/
theorem c6_retry_resets_failed_task (db : DB) (id : Nat) (task : ProcessingTask)
    (hfind : findTask db id = some task) :
    (task.status ≠ ProcessingStatus.failed → retryProcessingTaskHandler db id = (400, db)) ∧
    (task.status = ProcessingStatus.failed →
      retryProcessingTaskHandler db id =
        (200, saveTask db { task with status := ProcessingStatus.pending, progress := 0,
                                      error := "", startedAt := none, completedAt := none }) ∧
      (saveTask db { task with status := ProcessingStatus.pending, progress := 0,
                               error := "", startedAt := none, completedAt := none }).items =
        db.items ∧
      (saveTask db { task with status := ProcessingStatus.pending, progress := 0,
                               error := "", startedAt := none,
                               completedAt := none }).tasks.length = db.tasks.length) := by
  constructor
  · intro hs
    simp [retryProcessingTaskHandler, hfind, hs]
  · intro hs
    refine ⟨by simp [retryProcessingTaskHandler, hfind, hs], rfl, by simp [saveTask]⟩

/-- C6 witness: the failed task in the concrete state is reset to the
pending row with cleared fields, no row added, items untouched; the
pending task in the other concrete state is rejected with 400. -/
theorem c6_retry_resets_failed_task_witness :
    (retryProcessingTaskHandler dbRetry 1 =
        (200, saveTask dbRetry { failedTask with status := ProcessingStatus.pending,
                                                 progress := 0, error := "", startedAt := none,
                                                 completedAt := none }) ∧
      (saveTask dbRetry { failedTask with status := ProcessingStatus.pending, progress := 0,
                                          error := "", startedAt := none,
                                          completedAt := none }).items = dbRetry.items ∧
      (saveTask dbRetry { failedTask with status := ProcessingStatus.pending, progress := 0,
                                          error := "", startedAt := none,
                                          completedAt := none }).tasks.length =
        dbRetry.tasks.length) ∧
    retryProcessingTaskHandler dbProcessing 1 = (400, dbProcessing) :=
  ⟨(c6_retry_resets_failed_task dbRetry 1 failedTask rfl).2 rfl,
   (c6_retry_resets_failed_task dbProcessing 1 pendingTask rfl).1 (by decide)⟩

/-- C7 counterexample: cancelling while the work is Processing (its
download Completed) is rejected with 400 BadRequest, not 409 Conflict —
though indeed nothing changes. -/
theorem c7_cancel_counterexample :
    (cancelDownloadHandler dbProcessing 1).1 = 400 ∧
    (cancelDownloadHandler dbProcessing 1).1 ≠ 409 ∧
    (cancelDownloadHandler dbProcessing 1).2 = dbProcessing := by
  refine ⟨rfl, by decide, rfl⟩

/-- C7 amended: the cancel endpoint accepts only while the download is
Queued or Downloading and rejects anything else with 400 BadRequest and
no state change; an accepted cancel marks the download Failed with a
cancellation message and sets the owning work back to Wanted, the
handler itself making no daemon call; the service-level CancelDownload
performs the daemon removal best-effort — its outcome is identical
whether or not the daemon call fails — and likewise sets the work back
to Wanted. -/
theorem c7_cancel_semantics (db : DB) (id : Nat) (download : Download) (item : LibraryItem)
    (hd : findDownload db id = some download)
    (hi : findItem db download.libraryItemID = some item) :
    (download.status ≠ DownloadStatus.queued ∧ download.status ≠ DownloadStatus.downloading →
      cancelDownloadHandler db id = (400, db)) ∧
    (download.status = DownloadStatus.queued ∨ download.status = DownloadStatus.downloading →
      cancelDownloadHandler db id =
        (204, saveItem
          (saveDownload db { download with status := DownloadStatus.failed,
                                           error := "Download cancelled by user" })
          { item with status := LibraryItemStatus.wanted })) ∧
    (∀ b1 b2 : Bool, serviceCancelDownload db id b1 = serviceCancelDownload db id b2) ∧
    (∀ b : Bool, serviceCancelDownload db id b =
      Except.ok (saveItem
        (saveDownload db { download with status := DownloadStatus.failed,
                                         error := "Cancelled by user" })
        { item with status := LibraryItemStatus.wanted })) := by
  have hservice : ∀ b : Bool, serviceCancelDownload db id b =
      Except.ok (saveItem
        (saveDownload db { download with status := DownloadStatus.failed,
                                         error := "Cancelled by user" })
        { item with status := LibraryItemStatus.wanted }) := by
    intro b
    unfold serviceCancelDownload
    rw [hd]
    dsimp only
    have hthis : findItem
        (saveDownload db { download with status := DownloadStatus.failed,
                                         error := "Cancelled by user" })
        download.libraryItemID = some item := hi
    rw [hthis]
  refine ⟨?_, ?_, fun b1 b2 => (hservice b1).trans (hservice b2).symm, hservice⟩
  · intro hs
    simp [cancelDownloadHandler, hd, hs]
  · intro hs
    unfold cancelDownloadHandler
    rw [hd]
    dsimp only
    have hcond : ¬ (download.status ≠ DownloadStatus.queued ∧
        download.status ≠ DownloadStatus.downloading) := by
      rcases hs with h | h <;> simp [h]
    rw [if_neg hcond]
    have hthis : findItem
        (saveDownload db { download with status := DownloadStatus.failed,
                                         error := "Download cancelled by user" })
        download.libraryItemID = some item := hi
    rw [hthis]

/-- C7 witness: cancelling the concrete queued download is accepted,
marks it Failed/cancelled and sets the work back to Wanted; the
service-level cancel gives the same result whether the daemon removal
fails or not; cancelling the completed download is rejected with 400. -/
theorem c7_cancel_semantics_witness :
    cancelDownloadHandler dbQueued 1 =
      (204, saveItem
        (saveDownload dbQueued { queuedDownload with status := DownloadStatus.failed,
                                                     error := "Download cancelled by user" })
        { exItem with status := LibraryItemStatus.wanted }) ∧
    serviceCancelDownload dbQueued 1 true = serviceCancelDownload dbQueued 1 false ∧
    serviceCancelDownload dbQueued 1 true =
      Except.ok (saveItem
        (saveDownload dbQueued { queuedDownload with status := DownloadStatus.failed,
                                                     error := "Cancelled by user" })
        { exItem with status := LibraryItemStatus.wanted }) ∧
    cancelDownloadHandler dbProcessing 1 = (400, dbProcessing) :=
  ⟨(c7_cancel_semantics dbQueued 1 queuedDownload exItem rfl rfl).2.1 (Or.inl rfl),
   (c7_cancel_semantics dbQueued 1 queuedDownload exItem rfl rfl).2.2.1 true false,
   (c7_cancel_semantics dbQueued 1 queuedDownload exItem rfl rfl).2.2.2 true,
   (c7_cancel_semantics dbProcessing 1 completedDownload exItemProcessing rfl rfl).1 (by decide)⟩

/-- C1 counterexample: with a Paused transfer for work 1 in place,
starting an acquisition does not fail with Conflict — it returns 201 and
creates a second transfer, after which two transfers with status in
{Queued, Downloading, Paused} exist for the work. -/
theorem c1_conflict_counterexample :
    countWithStatus dbPaused 1
      [DownloadStatus.queued, DownloadStatus.downloading, DownloadStatus.paused] = 1 ∧
    (startDownloadHandler dbPaused 1 1).1 = 201 ∧
    countWithStatus (startDownloadHandler dbPaused 1 1).2 1
      [DownloadStatus.queued, DownloadStatus.downloading, DownloadStatus.paused] = 2 := by
  refine ⟨rfl, rfl, rfl⟩

/-- C1 amended: the start handler fails with 409 Conflict, mutating
nothing, exactly when a transfer with status Queued or Downloading
(Paused does not block) already exists for the work; consequently it
preserves the invariant that at most one Queued-or-Downloading transfer
exists per work. -/
theorem c1_conflict_invariant (db : DB) (liid rid : Nat) :
    (∀ (item : LibraryItem) (rel : Release),
      findItem db liid = some item → findRelease db rid = some rel →
      db.downloads.any (fun d => d.libraryItemID == liid && isActiveStatus d.status) = true →
      startDownloadHandler db liid rid = (409, db)) ∧
    (atMostOneActive db → atMostOneActive (startDownloadHandler db liid rid).2) := by
  constructor
  · intro item rel h1 h2 hany
    simp [startDownloadHandler, h1, h2, hany]
  · intro h
    unfold startDownloadHandler
    cases h1 : findItem db liid with
    | none => exact h
    | some item =>
      cases h2 : findRelease db rid with
      | none => exact h
      | some rel =>
        dsimp only
        by_cases hany : db.downloads.any
            (fun d => d.libraryItemID == liid && isActiveStatus d.status) = true
        · rw [if_pos hany]
          exact h
        · rw [if_neg hany]
          intro liid'
          have hall : ∀ d ∈ db.downloads,
              (d.libraryItemID == liid && isActiveStatus d.status) = false := by
            intro d hd
            by_contra hne
            apply hany
            rw [List.any_eq_true]
            refine ⟨d, hd, ?_⟩
            revert hne
            cases (d.libraryItemID == liid && isActiveStatus d.status) <;> simp
          unfold countWithStatus
          dsimp only [saveItem]
          rw [List.filter_append, List.length_append]
          by_cases hl : liid' = liid
          · subst hl
            have hnil : db.downloads.filter
                (fun d => d.libraryItemID == liid' &&
                  [DownloadStatus.queued, DownloadStatus.downloading].contains d.status) = [] := by
              rw [List.filter_eq_nil_iff]
              intro d hd
              rw [contains_active]
              simp [hall d hd]
            rw [hnil]
            simp [newDownload]
          · have hnewnil : List.filter
                (fun d : Download => d.libraryItemID == liid' &&
                  [DownloadStatus.queued, DownloadStatus.downloading].contains d.status)
                [newDownload db liid rid] = [] := by
              have hbeq : (liid == liid') = false := by
                simp only [beq_eq_false_iff_ne]
                exact fun hc => hl hc.symm
              simp [List.filter, newDownload, hbeq]
            rw [hnewnil]
            have hdb := h liid'
            unfold countWithStatus at hdb
            simpa using hdb

/-- C1 witness: with a queued transfer for work 1 in place the start
handler returns 409 leaving the state untouched, and the handler
preserves the at-most-one-active invariant on that state. -/
theorem c1_conflict_invariant_witness :
    startDownloadHandler dbQueued 1 1 = (409, dbQueued) ∧
    atMostOneActive (startDownloadHandler dbQueued 1 1).2 :=
  ⟨(c1_conflict_invariant dbQueued 1 1).1 exItem exRelease rfl rfl rfl,
   (c1_conflict_invariant dbQueued 1 1).2
     (fun _ => length_filter_singleton _ _)⟩
